import Mathlib

/-!
Verification development for the OneEarthForm waste-nutrient pipeline
(src/app.py, src/utils.py, src/plant_database.py).

Numbers are modelled as rationals.  A pandas cell is a `Value`: a string,
a number, or the missing marker `na` (NaN).  A DataFrame is a `Table`:
a row count together with an ordered association list of named columns.
-/

namespace OneEarth

/-- Cell of a pandas column: a string object, a numeric value, or NaN. -/
inductive Value where
  | str (s : String)
  | num (q : ℚ)
  | na
deriving DecidableEq, Repr

/-- Ordered columns of a DataFrame: name / cell-list pairs plus the row count. -/
structure Table where
  nrows : ℕ
  cols : List (String × List Value)
deriving DecidableEq, Repr

/-- Look a column up by name (first match, as for unique pandas column labels). -/
def getCols (c : String) : List (String × List Value) → Option (List Value)
  | [] => none
  | p :: ps => if p.1 = c then some p.2 else getCols c ps

/-- Assign a column: replace it in place when present, append it otherwise,
as pandas column assignment does. -/
def setCols (c : String) (vs : List Value) : List (String × List Value) → List (String × List Value)
  | [] => [(c, vs)]
  | p :: ps => if p.1 = c then (c, vs) :: ps else p :: setCols c vs ps

def Table.get (d : Table) (c : String) : Option (List Value) := getCols c d.cols

def Table.set (d : Table) (c : String) (vs : List Value) : Table :=
  ⟨d.nrows, setCols c vs d.cols⟩

/-- Membership test for `col in data.columns`. -/
def Table.hasCol (d : Table) (c : String) : Bool := d.cols.any (fun p => p.1 = c)

/-- Cells of a column, empty when the column is absent. -/
def Table.vals (d : Table) (c : String) : List Value := (d.get c).getD []

@[simp] theorem get_set_self (d : Table) (c : String) (vs : List Value) :
    (d.set c vs).get c = some vs := by
  show getCols c (setCols c vs d.cols) = some vs
  induction d.cols with
  | nil => simp [setCols, getCols]
  | cons p ps ih =>
    by_cases h : p.1 = c <;> simp [setCols, getCols, h, ih]

@[simp] theorem get_set_ne (d : Table) (c c' : String) (vs : List Value) (h : c' ≠ c) :
    (d.set c vs).get c' = d.get c' := by
  have hcc : ¬ c = c' := fun hc => h hc.symm
  show getCols c' (setCols c vs d.cols) = getCols c' d.cols
  induction d.cols with
  | nil => simp [setCols, getCols, hcc]
  | cons p ps ih =>
    by_cases hp : p.1 = c
    · subst hp
      simp [setCols, getCols, hcc]
    · by_cases hp' : p.1 = c' <;> simp [setCols, getCols, hp, hp', ih, h]

@[simp] theorem nrows_set (d : Table) (c : String) (vs : List Value) :
    (d.set c vs).nrows = d.nrows := rfl

theorem hasCol_set_ne (d : Table) (c c' : String) (vs : List Value) (h : c' ≠ c) :
    (d.set c vs).hasCol c' = d.hasCol c' := by
  have hcc : ¬ c = c' := fun hc => h hc.symm
  show (setCols c vs d.cols).any (fun p => p.1 = c') = d.cols.any (fun p => p.1 = c')
  induction d.cols with
  | nil => simp [setCols, hcc]
  | cons p ps ih =>
    by_cases hp : p.1 = c
    · subst hp
      simp [setCols]
    · simp [setCols, hp, ih]

theorem hasCol_of_get_some (d : Table) (c : String) (vs : List Value)
    (h : d.get c = some vs) : d.hasCol c = true := by
  revert h
  show getCols c d.cols = some vs → d.cols.any (fun p => p.1 = c) = true
  induction d.cols with
  | nil => intro h; exact absurd h (by simp [getCols])
  | cons p ps ih =>
    intro h
    by_cases hp : p.1 = c
    · simp [hp]
    · simp only [getCols, if_neg hp] at h
      simp [List.any_cons, ih h]

theorem set_self_of_get (d : Table) (c : String) (vs : List Value)
    (h : d.get c = some vs) : d.set c vs = d := by
  obtain ⟨n, cols⟩ := d
  show Table.mk n (setCols c vs cols) = Table.mk n cols
  simp only [Table.mk.injEq, true_and]
  revert h
  show getCols c cols = some vs → _
  induction cols with
  | nil => intro h; exact absurd h (by simp [getCols])
  | cons p ps ih =>
    by_cases hp : p.1 = c
    · intro h
      simp only [getCols, if_pos hp, Option.some.injEq] at h
      simp only [setCols, if_pos hp]
      rw [← hp, ← h]
    · intro h
      simp only [getCols, if_neg hp] at h
      simp only [setCols, if_neg hp, ih h]

/-!
Suitability analyzer, from src/utils.py `analyze_nutrient_suitability`,
and the plant requirement table from src/plant_database.py.
-/

/-- Per-nutrient requirement triple from src/plant_database.py. -/
structure NutrientReq where
  min : ℚ
  max : ℚ
  optimal : ℚ
deriving DecidableEq, Repr

/-- One entry of `plant_requirements`: the three nutrient triples plus the
free-text description. -/
structure PlantInfo where
  Nitrogen : NutrientReq
  Phosphorus : NutrientReq
  Potassium : NutrientReq
  description : String
deriving DecidableEq, Repr

/-- Status of a nutrient in a suitability verdict. -/
inductive Status where
  | Low
  | High
  | Optimal
deriving DecidableEq, Repr

/-- Suitability verdict for one nutrient, src/utils.py lines 24-29. -/
structure SuitEntry where
  status : Status
  current : ℚ
  optimal : ℚ
  action : String
deriving DecidableEq, Repr

/-- Nutrient prediction mapping: each of the three keys may be present
(`some`) or absent (`none`), matching the dict membership test on line 10
of src/utils.py. -/
structure Predictions where
  Nitrogen_pct : Option ℚ
  Phosphorus_pct : Option ℚ
  Potassium_pct : Option ℚ
deriving DecidableEq, Repr

/-- Recommendation string appended for a Low nutrient, src/utils.py line 33. -/
def lowRec (nutrient : String) : String :=
  "- " ++ nutrient ++ " is low. Consider supplementing with " ++ nutrient ++ "-rich materials."

/-- Recommendation string appended for a High nutrient, src/utils.py line 35. -/
def highRec (nutrient : String) : String :=
  "- " ++ nutrient ++ " is high. Consider mixing with lower " ++ nutrient ++ " materials."

/-- Body of one iteration of the loop in src/utils.py lines 9-35: when the
nutrient key is present, classify the value against the requirement, append
the verdict entry, and append a recommendation when the status is not
Optimal. -/
def analyzeOne (nutrient : String) (valueOpt : Option ℚ) (req : NutrientReq)
    (acc : List (String × SuitEntry) × List String) :
    List (String × SuitEntry) × List String :=
  match valueOpt with
  | none => acc
  | some value =>
    let sa : Status × String :=
      if value < req.min then (Status.Low, "Increase " ++ nutrient)
      else if value > req.max then (Status.High, "Reduce " ++ nutrient)
      else (Status.Optimal, "Maintain levels")
    (acc.1 ++ [(nutrient, ⟨sa.1, value, req.optimal, sa.2⟩)],
     if sa.1 ≠ Status.Optimal then
       if sa.1 = Status.Low then acc.2 ++ [lowRec nutrient]
       else acc.2 ++ [highRec nutrient]
     else acc.2)

/-- Embedding of `analyze_nutrient_suitability` (src/utils.py lines 4-37):
the loop runs over Nitrogen, Phosphorus, Potassium in order, starting from
an empty verdict list and an empty recommendation list. -/
def analyze_nutrient_suitability (predictions : Predictions) (plant_info : PlantInfo) :
    List (String × SuitEntry) × List String :=
  analyzeOne "Potassium" predictions.Potassium_pct plant_info.Potassium
    (analyzeOne "Phosphorus" predictions.Phosphorus_pct plant_info.Phosphorus
      (analyzeOne "Nitrogen" predictions.Nitrogen_pct plant_info.Nitrogen ([], [])))

/-- The Tomatoes entry of `plant_requirements` (src/plant_database.py lines 2-7).
Decimal constants are written as exact fractions: 1.5 is `mkRat 3 2`,
3.5 is `mkRat 7 2`, 2.5 is `mkRat 5 2`, 0.3 is `mkRat 3 10`, 0.8 is
`mkRat 4 5`, 0.5 is `mkRat 1 2`, 1.2 is `mkRat 6 5`, 1.8 is `mkRat 9 5`. -/
def Tomatoes : PlantInfo :=
  { Nitrogen := ⟨mkRat 3 2, mkRat 7 2, mkRat 5 2⟩
    Phosphorus := ⟨mkRat 3 10, mkRat 4 5, mkRat 1 2⟩
    Potassium := ⟨mkRat 6 5, mkRat 5 2, mkRat 9 5⟩
    description := "Heavy feeders that need high nitrogen during vegetative growth and more phosphorus during fruiting." }

/-- Status the claim ascribes to a value against a requirement triple. -/
def statusOf (value : ℚ) (req : NutrientReq) : Status :=
  if value < req.min then Status.Low
  else if value > req.max then Status.High
  else Status.Optimal

/-- Action string paired with each status in the code. -/
def actionOf (nutrient : String) (st : Status) : String :=
  match st with
  | Status.Low => "Increase " ++ nutrient
  | Status.High => "Reduce " ++ nutrient
  | Status.Optimal => "Maintain levels"

/-- Verdict entry produced for a present nutrient. -/
def entryOf (nutrient : String) (valueOpt : Option ℚ) (req : NutrientReq) :
    List (String × SuitEntry) :=
  match valueOpt with
  | none => []
  | some v => [(nutrient, ⟨statusOf v req, v, req.optimal, actionOf nutrient (statusOf v req)⟩)]

/-- Recommendations produced for a present nutrient. -/
def recsOf (nutrient : String) (valueOpt : Option ℚ) (req : NutrientReq) : List String :=
  match valueOpt with
  | none => []
  | some v =>
    match statusOf v req with
    | Status.Low => [lowRec nutrient]
    | Status.High => [highRec nutrient]
    | Status.Optimal => []

theorem analyzeOne_eq (nutrient : String) (valueOpt : Option ℚ) (req : NutrientReq)
    (acc : List (String × SuitEntry) × List String) :
    analyzeOne nutrient valueOpt req acc =
      (acc.1 ++ entryOf nutrient valueOpt req, acc.2 ++ recsOf nutrient valueOpt req) := by
  cases valueOpt with
  | none => simp [analyzeOne, entryOf, recsOf]
  | some v =>
    by_cases h1 : v < req.min
    · simp [analyzeOne, entryOf, recsOf, statusOf, actionOf, h1]
    · by_cases h2 : v > req.max <;>
        simp [analyzeOne, entryOf, recsOf, statusOf, actionOf, h1, h2]

/-- Master characterization: the analyzer output is the concatenation of the
per-nutrient entries and recommendations, in Nitrogen, Phosphorus, Potassium
order. -/
theorem analyze_eq (pred : Predictions) (info : PlantInfo) :
    analyze_nutrient_suitability pred info =
      (entryOf "Nitrogen" pred.Nitrogen_pct info.Nitrogen
         ++ entryOf "Phosphorus" pred.Phosphorus_pct info.Phosphorus
         ++ entryOf "Potassium" pred.Potassium_pct info.Potassium,
       recsOf "Nitrogen" pred.Nitrogen_pct info.Nitrogen
         ++ recsOf "Phosphorus" pred.Phosphorus_pct info.Phosphorus
         ++ recsOf "Potassium" pred.Potassium_pct info.Potassium) := by
  simp [analyze_nutrient_suitability, analyzeOne_eq]

/-- Number of recommendations a nutrient slot contributes: one exactly when
the key is present and its status is not Optimal. -/
def presentNonOptimal (valueOpt : Option ℚ) (req : NutrientReq) : ℕ :=
  match valueOpt with
  | none => 0
  | some v => if statusOf v req = Status.Optimal then 0 else 1

theorem statusOf_low_iff (v : ℚ) (req : NutrientReq) :
    statusOf v req = Status.Low ↔ v < req.min := by
  unfold statusOf
  split_ifs with h1 h2
  · simp [h1]
  · simp [h1]
  · simp [h1]

theorem statusOf_high_iff (v : ℚ) (req : NutrientReq) (hle : req.min ≤ req.max) :
    statusOf v req = Status.High ↔ req.max < v := by
  unfold statusOf
  split_ifs with h1 h2
  · have : ¬ req.max < v := not_lt.mpr (le_of_lt (lt_of_lt_of_le h1 hle))
    simp [this]
  · simp [h2]
  · simp [h2]

theorem statusOf_optimal_iff (v : ℚ) (req : NutrientReq) :
    statusOf v req = Status.Optimal ↔ (req.min ≤ v ∧ v ≤ req.max) := by
  unfold statusOf
  split_ifs with h1 h2
  · simp [not_le.mpr h1]
  · simp [not_le.mpr h2]
  · simp [not_lt.mp h1, not_lt.mp h2]

theorem recsOf_length (nutrient : String) (valueOpt : Option ℚ) (req : NutrientReq) :
    (recsOf nutrient valueOpt req).length = presentNonOptimal valueOpt req := by
  cases valueOpt with
  | none => rfl
  | some v => cases h : statusOf v req <;> simp [recsOf, presentNonOptimal, h]

/-- The prediction of the Tomatoes scenario in the spec:
Nitrogen_pct 1.0, Phosphorus_pct 0.5, Potassium_pct 1.8. -/
def scenarioPred : Predictions := ⟨some 1, some (mkRat 1 2), some (mkRat 9 5)⟩

/-- C1: for every nutrient prediction and every plant requirement entry with
min ≤ max, the analyzer classifies each present nutrient as Low with the
increase action exactly when its value is strictly below min, High with the
reduce action exactly when strictly above max, and Optimal with the maintain
action otherwise (boundary values inclusive); it emits exactly one
recommendation string per present non-Optimal nutrient and none when all
three are Optimal. -/
theorem C1_suitability_classification (pred : Predictions) (info : PlantInfo)
    (hN : info.Nitrogen.min ≤ info.Nitrogen.max)
    (hP : info.Phosphorus.min ≤ info.Phosphorus.max)
    (hK : info.Potassium.min ≤ info.Potassium.max) :
    (∀ v, pred.Nitrogen_pct = some v →
      (analyze_nutrient_suitability pred info).1.lookup "Nitrogen" =
        some ⟨statusOf v info.Nitrogen, v, info.Nitrogen.optimal,
              actionOf "Nitrogen" (statusOf v info.Nitrogen)⟩
      ∧ (statusOf v info.Nitrogen = Status.Low ↔ v < info.Nitrogen.min)
      ∧ (statusOf v info.Nitrogen = Status.High ↔ info.Nitrogen.max < v)
      ∧ (statusOf v info.Nitrogen = Status.Optimal ↔
          info.Nitrogen.min ≤ v ∧ v ≤ info.Nitrogen.max))
    ∧ (∀ v, pred.Phosphorus_pct = some v →
      (analyze_nutrient_suitability pred info).1.lookup "Phosphorus" =
        some ⟨statusOf v info.Phosphorus, v, info.Phosphorus.optimal,
              actionOf "Phosphorus" (statusOf v info.Phosphorus)⟩
      ∧ (statusOf v info.Phosphorus = Status.Low ↔ v < info.Phosphorus.min)
      ∧ (statusOf v info.Phosphorus = Status.High ↔ info.Phosphorus.max < v)
      ∧ (statusOf v info.Phosphorus = Status.Optimal ↔
          info.Phosphorus.min ≤ v ∧ v ≤ info.Phosphorus.max))
    ∧ (∀ v, pred.Potassium_pct = some v →
      (analyze_nutrient_suitability pred info).1.lookup "Potassium" =
        some ⟨statusOf v info.Potassium, v, info.Potassium.optimal,
              actionOf "Potassium" (statusOf v info.Potassium)⟩
      ∧ (statusOf v info.Potassium = Status.Low ↔ v < info.Potassium.min)
      ∧ (statusOf v info.Potassium = Status.High ↔ info.Potassium.max < v)
      ∧ (statusOf v info.Potassium = Status.Optimal ↔
          info.Potassium.min ≤ v ∧ v ≤ info.Potassium.max))
    ∧ (analyze_nutrient_suitability pred info).2.length =
        presentNonOptimal pred.Nitrogen_pct info.Nitrogen
          + presentNonOptimal pred.Phosphorus_pct info.Phosphorus
          + presentNonOptimal pred.Potassium_pct info.Potassium
    ∧ (∀ vN vP vK, pred.Nitrogen_pct = some vN → pred.Phosphorus_pct = some vP →
        pred.Potassium_pct = some vK →
        statusOf vN info.Nitrogen = Status.Optimal →
        statusOf vP info.Phosphorus = Status.Optimal →
        statusOf vK info.Potassium = Status.Optimal →
        (analyze_nutrient_suitability pred info).2 = []) := by
  refine ⟨?_, ?_, ?_, ?_, ?_⟩
  · intro v hv
    refine ⟨?_, statusOf_low_iff v _, statusOf_high_iff v _ hN, statusOf_optimal_iff v _⟩
    rw [analyze_eq]
    simp [hv, entryOf, List.lookup]
  · intro v hv
    refine ⟨?_, statusOf_low_iff v _, statusOf_high_iff v _ hP, statusOf_optimal_iff v _⟩
    rw [analyze_eq]
    rcases hN' : pred.Nitrogen_pct with _ | vN <;>
      simp [hv, hN', entryOf, List.lookup]
  · intro v hv
    refine ⟨?_, statusOf_low_iff v _, statusOf_high_iff v _ hK, statusOf_optimal_iff v _⟩
    rw [analyze_eq]
    rcases hN' : pred.Nitrogen_pct with _ | vN <;>
      rcases hP' : pred.Phosphorus_pct with _ | vP <;>
        simp [hv, hN', hP', entryOf, List.lookup]
  · rw [analyze_eq]
    simp [recsOf_length]
    omega
  · intro vN vP vK h1 h2 h3 s1 s2 s3
    rw [analyze_eq]
    simp [recsOf, h1, h2, h3, s1, s2, s3]

/-- Witness for C1: the Tomatoes scenario. The hypotheses hold for the
Tomatoes entry, Nitrogen 1.0 is classified Low with the increase action,
Phosphorus 0.5 and Potassium 1.8 are Optimal, and exactly one
recommendation is emitted, the one for Nitrogen. -/
theorem C1_suitability_classification_witness :
    (Tomatoes.Nitrogen.min ≤ Tomatoes.Nitrogen.max)
    ∧ ((analyze_nutrient_suitability scenarioPred Tomatoes).1.lookup "Nitrogen" =
        some ⟨statusOf 1 Tomatoes.Nitrogen, 1, Tomatoes.Nitrogen.optimal,
              actionOf "Nitrogen" (statusOf 1 Tomatoes.Nitrogen)⟩)
    ∧ statusOf 1 Tomatoes.Nitrogen = Status.Low
    ∧ actionOf "Nitrogen" (statusOf 1 Tomatoes.Nitrogen) = "Increase Nitrogen"
    ∧ statusOf (mkRat 1 2) Tomatoes.Phosphorus = Status.Optimal
    ∧ statusOf (mkRat 9 5) Tomatoes.Potassium = Status.Optimal
    ∧ (analyze_nutrient_suitability scenarioPred Tomatoes).2.length = 1
    ∧ (analyze_nutrient_suitability scenarioPred Tomatoes).2 = [lowRec "Nitrogen"] :=
  ⟨by decide,
   ((C1_suitability_classification scenarioPred Tomatoes (by decide) (by decide) (by decide)).1
      1 rfl).1,
   by decide, by decide, by decide, by decide, by decide, by decide⟩

/-- C10: the analyzer silently skips absent nutrient keys: the verdict list
has entries exactly for the present keys (in Nitrogen, Phosphorus, Potassium
order), the recommendation list is the concatenation of the per-present-key
recommendations, and an absent key contributes no verdict entry and no
recommendation; no error is possible since the analyzer is a total
function. -/
theorem C10_absent_keys_skipped (pred : Predictions) (info : PlantInfo) :
    (analyze_nutrient_suitability pred info).1.map Prod.fst =
        (if pred.Nitrogen_pct.isSome then ["Nitrogen"] else [])
          ++ (if pred.Phosphorus_pct.isSome then ["Phosphorus"] else [])
          ++ (if pred.Potassium_pct.isSome then ["Potassium"] else [])
    ∧ (analyze_nutrient_suitability pred info).2 =
        recsOf "Nitrogen" pred.Nitrogen_pct info.Nitrogen
          ++ recsOf "Phosphorus" pred.Phosphorus_pct info.Phosphorus
          ++ recsOf "Potassium" pred.Potassium_pct info.Potassium
    ∧ (∀ n req, entryOf n (none : Option ℚ) req = [] ∧ recsOf n (none : Option ℚ) req = []) := by
  refine ⟨?_, ?_, fun n req => ⟨rfl, rfl⟩⟩
  · rw [analyze_eq]
    rcases hN : pred.Nitrogen_pct with _ | vN <;>
      rcases hP : pred.Phosphorus_pct with _ | vP <;>
        rcases hK : pred.Potassium_pct with _ | vK <;>
          simp [hN, hP, hK, entryOf]
  · rw [analyze_eq]

/-!
Carbon-to-nitrogen ratio check, src/app.py lines 289-296.
-/

/-- Verdict of the C/N ratio check of src/app.py lines 291-296. -/
inductive CNVerdict where
  | tooHigh
  | tooLow
  | optimal
deriving DecidableEq, Repr

/-- The ratio computed on line 289 of src/app.py: the carbon content divided
by the predicted nitrogen percentage. -/
def c_n_ratio (carbon_content nitrogen_pct : ℚ) : ℚ := carbon_content / nitrogen_pct

/-- The branch taken on lines 291-296 of src/app.py: ratio above 30 warns
that the ratio is high, ratio below 15 warns that it is low, anything else
reports optimal. -/
def c_n_verdict (carbon_content nitrogen_pct : ℚ) : CNVerdict :=
  if c_n_ratio carbon_content nitrogen_pct > 30 then CNVerdict.tooHigh
  else if c_n_ratio carbon_content nitrogen_pct < 15 then CNVerdict.tooLow
  else CNVerdict.optimal

/-- The division of line 289 of src/app.py with its definedness condition
made explicit: the code divides by the predicted nitrogen unconditionally,
with no surrounding check, so a zero divisor reaches the division directly;
`none` is the error case of that division. -/
def c_n_ratio_checked (carbon_content nitrogen_pct : ℚ) : Option ℚ :=
  if nitrogen_pct = 0 then none else some (carbon_content / nitrogen_pct)

/-- C2: for every carbon content and nonzero predicted nitrogen, the check
computes ratio = carbon / nitrogen and reports the too-high verdict exactly
when the ratio exceeds 30, the too-low verdict exactly when it is below 15,
and the optimal verdict otherwise. -/
theorem C2_cn_ratio_branches (carbon nitrogen : ℚ) (h : nitrogen ≠ 0) :
    c_n_ratio carbon nitrogen = carbon / nitrogen
    ∧ (c_n_verdict carbon nitrogen = CNVerdict.tooHigh ↔ 30 < carbon / nitrogen)
    ∧ (c_n_verdict carbon nitrogen = CNVerdict.tooLow ↔ carbon / nitrogen < 15)
    ∧ (c_n_verdict carbon nitrogen = CNVerdict.optimal ↔
        15 ≤ carbon / nitrogen ∧ carbon / nitrogen ≤ 30) := by
  refine ⟨rfl, ?_, ?_, ?_⟩
  · unfold c_n_verdict c_n_ratio
    split_ifs with h1 h2
    · simp [h1]
    · simp [h1]
    · simp [h1]
  · unfold c_n_verdict c_n_ratio
    split_ifs with h1 h2
    · have hx : ¬ (carbon / nitrogen < 15) := by push_neg; linarith
      simp [hx]
    · simp [h2]
    · simp [h2]
  · unfold c_n_verdict c_n_ratio
    split_ifs with h1 h2
    · simp [not_le.mpr h1]
    · simp [not_le.mpr h2]
    · simp [not_lt.mp h1, not_lt.mp h2]

/-- Witness for C2: carbon 40 with nitrogen 1 gives ratio 40 and the
too-high branch; carbon 40 with nitrogen 4 gives ratio 10 and the too-low
branch. -/
theorem C2_cn_ratio_branches_witness :
    (1 : ℚ) ≠ 0 ∧ (4 : ℚ) ≠ 0
    ∧ (40 : ℚ) / 1 = 40 ∧ c_n_verdict 40 1 = CNVerdict.tooHigh
    ∧ (40 : ℚ) / 4 = 10 ∧ c_n_verdict 40 4 = CNVerdict.tooLow :=
  ⟨by norm_num, by norm_num, by norm_num,
   (C2_cn_ratio_branches 40 1 (by norm_num)).2.1.mpr (by norm_num),
   by norm_num,
   (C2_cn_ratio_branches 40 4 (by norm_num)).2.2.1.mpr (by norm_num)⟩

/-- C3 counterexample: the claim says the division underlying the C/N
verdict is guarded so that its error branch is unreachable; but at carbon
content 40 and predicted nitrogen 0 the unguarded division of src/app.py
line 289 reaches its error case. -/
theorem C3_cn_guard_counterexample :
    c_n_ratio_checked 40 0 = none ∧ ¬ ∃ q : ℚ, c_n_ratio_checked 40 0 = some q := by
  refine ⟨rfl, ?_⟩
  rintro ⟨q, hq⟩
  simp [c_n_ratio_checked] at hq

/-- C3 amended: the C/N division is performed unguarded; for every carbon
content, a predicted nitrogen of 0 reaches the error branch of the
division. -/
theorem C3_cn_division_unguarded (carbon : ℚ) : c_n_ratio_checked carbon 0 = none := rfl

/-!
Feature normalizer, src/app.py lines 21-104: the categorical mappings and
default table, `convert_categorical_to_numeric`, and `handle_missing_data`.
Decimal constants are written as exact fractions (4.5 is `mkRat 9 2`,
6.5 is `mkRat 13 2`, 8.5 is `mkRat 17 2`, 0.5 is `mkRat 1 2`).
-/

/-- DEFAULT_VALUES, src/app.py lines 21-29, in dict order. -/
def DEFAULT_VALUES : List (String × Value) :=
  [("Waste_Type", Value.str "Mixed"),
   ("Moisture_Content", Value.num 50),
   ("pH_Level", Value.num (mkRat 13 2)),
   ("Carbon_Content", Value.num 35),
   ("Particle_Size_mm", Value.num 10),
   ("Age_Days", Value.num 30),
   ("Degradation_Rate", Value.num 1)]

/-- CATEGORICAL_MAPPINGS, src/app.py lines 32-39, in dict order. -/
def CATEGORICAL_MAPPINGS : List (String × List (String × ℚ)) :=
  [("Moisture_Content", [("Low", 30), ("Medium", 50), ("High", 70)]),
   ("pH_Level", [("Low", mkRat 9 2), ("Medium", mkRat 13 2), ("High", mkRat 17 2)]),
   ("Carbon_Content", [("Low", 25), ("Medium", 35), ("High", 45)]),
   ("Particle_Size_mm", [("Small", 2), ("Medium", 10), ("Large", 25)]),
   ("Age_Days", [("Young", 15), ("Medium", 30), ("Old", 60)]),
   ("Degradation_Rate", [("Slow", mkRat 1 2), ("Medium", 1), ("Fast", 2)])]

/-- Dtype test of src/app.py line 44: a pandas column read from a CSV has
dtype object exactly when it holds string cells. -/
def isObjectDtype (vs : List Value) : Bool :=
  vs.any fun v => match v with
    | Value.str _ => true
    | _ => false

/-- The test `data[col].isin(mapping.keys()).any()` of src/app.py line 45. -/
def hasMappedValue (mapping : List (String × ℚ)) (vs : List Value) : Bool :=
  vs.any fun v => match v with
    | Value.str s => (mapping.lookup s).isSome
    | _ => false

/-- The column transform `data[col].map(mapping)` of src/app.py line 46:
a cell found among the mapping keys becomes its numeric image, and every
other cell — numeric cells included — becomes NaN. -/
def mapColumn (mapping : List (String × ℚ)) (vs : List Value) : List Value :=
  vs.map fun v => match v with
    | Value.str s =>
      match mapping.lookup s with
      | some q => Value.num q
      | none => Value.na
    | _ => Value.na

/-- One iteration of the loop of src/app.py lines 43-47: when the column is
present, has object dtype, and holds at least one mapped label, replace it
by its mapped image. -/
def convertStep (d : Table) (p : String × List (String × ℚ)) : Table :=
  match d.get p.1 with
  | some vs =>
    if isObjectDtype vs && hasMappedValue p.2 vs then d.set p.1 (mapColumn p.2 vs)
    else d
  | none => d

/-- Embedding of `convert_categorical_to_numeric`, src/app.py lines 41-48. -/
def convert_categorical_to_numeric (data : Table) : Table :=
  CATEGORICAL_MAPPINGS.foldl convertStep data

/-- The numeric column list of src/app.py lines 62-63. -/
def numeric_columns : List String :=
  ["Moisture_Content", "pH_Level", "Carbon_Content",
   "Particle_Size_mm", "Age_Days", "Degradation_Rate"]

/-- The coercion `pd.to_numeric(data[col], errors=coerce)` of src/app.py
line 67: numeric cells stay, everything else becomes NaN (string cells in
this model denote labels that do not parse as numbers). -/
def to_numeric_coerce (vs : List Value) : List Value :=
  vs.map fun v => match v with
    | Value.num q => Value.num q
    | _ => Value.na

/-- The column mean `data[col].mean()` over non-missing cells; the pandas
mean of an all-missing column is NaN. -/
def colMean (vs : List Value) : Value :=
  let nums := vs.filterMap fun v => match v with
    | Value.num q => some q
    | _ => none
  if nums.length = 0 then Value.na else Value.num (nums.sum / nums.length)

/-- The fill `data[col].fillna(m)` of src/app.py line 70. -/
def fillnaWith (m : Value) (vs : List Value) : List Value :=
  vs.map fun v => match v with
    | Value.na => m
    | _ => v

/-- Lines 66-70 of src/app.py for one present numeric column: coerce to
numeric, then fill missing cells with the column mean when any are
missing. -/
def handleNumericCol (vs : List Value) : List Value :=
  let coerced := to_numeric_coerce vs
  if coerced.any (fun v => v = Value.na) then fillnaWith (colMean coerced) coerced
  else coerced

/-- One iteration of the missing-column loop of src/app.py lines 56-59:
insert the default, broadcast over all rows, when the column is absent. -/
def defaultStep (d : Table) (p : String × Value) : Table :=
  if d.hasCol p.1 then d else d.set p.1 (List.replicate d.nrows p.2)

/-- One iteration of the numeric loop of src/app.py lines 64-70. -/
def numericStep (d : Table) (c : String) : Table :=
  match d.get c with
  | some vs => d.set c (handleNumericCol vs)
  | none => d

/-- Embedding of `handle_missing_data`, src/app.py lines 50-104: insert the
default for each absent expected column, then coerce each present numeric
column and mean-impute its missing cells. -/
def handle_missing_data (data : Table) : Table :=
  numeric_columns.foldl numericStep (DEFAULT_VALUES.foldl defaultStep data)

theorem get_convertStep_ne (d : Table) (p : String × List (String × ℚ)) (c : String)
    (h : ¬ p.1 = c) : (convertStep d p).get c = d.get c := by
  cases hg : d.get p.1 with
  | none => simp [convertStep, hg]
  | some vs =>
    by_cases hb : isObjectDtype vs && hasMappedValue p.2 vs
    · simp [convertStep, hg, hb, get_set_ne d p.1 c (mapColumn p.2 vs) (fun hc => h hc.symm)]
    · simp [convertStep, hg, hb]

/-- What one conversion step does to its own column: when the column is
present, has object dtype, and holds a mapped label, the whole column is
mapped (unmatched cells become NaN); otherwise it is left unchanged. -/
def convertColSpec (mapping : List (String × ℚ)) : Option (List Value) → Option (List Value)
  | none => none
  | some vs =>
    some (if isObjectDtype vs && hasMappedValue mapping vs then mapColumn mapping vs else vs)

theorem get_convertStep_self (d : Table) (p : String × List (String × ℚ)) :
    (convertStep d p).get p.1 = convertColSpec p.2 (d.get p.1) := by
  cases hg : d.get p.1 with
  | none => simp [convertStep, convertColSpec, hg]
  | some vs =>
    by_cases hb : isObjectDtype vs && hasMappedValue p.2 vs
    · simp [convertStep, convertColSpec, hg, hb]
    · simp [convertStep, convertColSpec, hg, hb]

/-- Example table for C4: a pH_Level column holding the mapped label High
followed by an unrecognized label. -/
def exC4 : Table := ⟨2, [("pH_Level", [Value.str "High", Value.str "Unknown"])]⟩

/-- C4 counterexample: the claim says values outside the mapping are passed
through unchanged, but on a pH_Level column holding the labels High and
Unknown, conversion maps High to 8.5 and replaces the unrecognized label
Unknown by NaN instead of leaving it in place. -/
theorem C4_counterexample :
    (convert_categorical_to_numeric exC4).get "pH_Level" =
      some [Value.num (mkRat 17 2), Value.na]
    ∧ ¬ (convert_categorical_to_numeric exC4).get "pH_Level" =
        some [Value.num (mkRat 17 2), Value.str "Unknown"] := by decide

/-- C4 amended: for every table, each of the six recognized columns is
transformed as follows — when present with object dtype and at least one
cell matching the column's label mapping, every matching cell becomes its
mapped numeric value and every other cell (numeric cells and unrecognized
labels included) becomes NaN; a recognized column with no matching cell or
non-object dtype is left unchanged, as is every column whose name is not
recognized; no error is raised since conversion is a total function. -/
theorem C4_categorical_conversion (d : Table) :
    ((convert_categorical_to_numeric d).get "Moisture_Content" =
        convertColSpec [("Low", 30), ("Medium", 50), ("High", 70)] (d.get "Moisture_Content"))
    ∧ ((convert_categorical_to_numeric d).get "pH_Level" =
        convertColSpec [("Low", mkRat 9 2), ("Medium", mkRat 13 2), ("High", mkRat 17 2)]
          (d.get "pH_Level"))
    ∧ ((convert_categorical_to_numeric d).get "Carbon_Content" =
        convertColSpec [("Low", 25), ("Medium", 35), ("High", 45)] (d.get "Carbon_Content"))
    ∧ ((convert_categorical_to_numeric d).get "Particle_Size_mm" =
        convertColSpec [("Small", 2), ("Medium", 10), ("Large", 25)] (d.get "Particle_Size_mm"))
    ∧ ((convert_categorical_to_numeric d).get "Age_Days" =
        convertColSpec [("Young", 15), ("Medium", 30), ("Old", 60)] (d.get "Age_Days"))
    ∧ ((convert_categorical_to_numeric d).get "Degradation_Rate" =
        convertColSpec [("Slow", mkRat 1 2), ("Medium", 1), ("Fast", 2)]
          (d.get "Degradation_Rate"))
    ∧ (∀ c, (∀ p ∈ CATEGORICAL_MAPPINGS, ¬ p.1 = c) →
        (convert_categorical_to_numeric d).get c = d.get c) := by
  unfold convert_categorical_to_numeric CATEGORICAL_MAPPINGS
  simp only [List.foldl_cons, List.foldl_nil]
  refine ⟨?_, ?_, ?_, ?_, ?_, ?_, ?_⟩
  · rw [get_convertStep_ne _ _ _ (by decide), get_convertStep_ne _ _ _ (by decide),
        get_convertStep_ne _ _ _ (by decide), get_convertStep_ne _ _ _ (by decide),
        get_convertStep_ne _ _ _ (by decide), get_convertStep_self]
  · rw [get_convertStep_ne _ _ _ (by decide), get_convertStep_ne _ _ _ (by decide),
        get_convertStep_ne _ _ _ (by decide), get_convertStep_ne _ _ _ (by decide),
        get_convertStep_self, get_convertStep_ne _ _ _ (by decide)]
  · rw [get_convertStep_ne _ _ _ (by decide), get_convertStep_ne _ _ _ (by decide),
        get_convertStep_ne _ _ _ (by decide), get_convertStep_self,
        get_convertStep_ne _ _ _ (by decide), get_convertStep_ne _ _ _ (by decide)]
  · rw [get_convertStep_ne _ _ _ (by decide), get_convertStep_ne _ _ _ (by decide),
        get_convertStep_self, get_convertStep_ne _ _ _ (by decide),
        get_convertStep_ne _ _ _ (by decide), get_convertStep_ne _ _ _ (by decide)]
  · rw [get_convertStep_ne _ _ _ (by decide), get_convertStep_self,
        get_convertStep_ne _ _ _ (by decide), get_convertStep_ne _ _ _ (by decide),
        get_convertStep_ne _ _ _ (by decide), get_convertStep_ne _ _ _ (by decide)]
  · rw [get_convertStep_self, get_convertStep_ne _ _ _ (by decide),
        get_convertStep_ne _ _ _ (by decide), get_convertStep_ne _ _ _ (by decide),
        get_convertStep_ne _ _ _ (by decide), get_convertStep_ne _ _ _ (by decide)]
  · intro c hc
    rw [get_convertStep_ne _ _ _ (hc _ (by simp [CATEGORICAL_MAPPINGS])),
        get_convertStep_ne _ _ _ (hc _ (by simp [CATEGORICAL_MAPPINGS])),
        get_convertStep_ne _ _ _ (hc _ (by simp [CATEGORICAL_MAPPINGS])),
        get_convertStep_ne _ _ _ (hc _ (by simp [CATEGORICAL_MAPPINGS])),
        get_convertStep_ne _ _ _ (hc _ (by simp [CATEGORICAL_MAPPINGS])),
        get_convertStep_ne _ _ _ (hc _ (by simp [CATEGORICAL_MAPPINGS]))]

/-- Witness for C4: on the pH_Level example table, the recognized column is
transformed according to `convertColSpec`, and a column name outside the
mapping table is untouched. -/
theorem C4_categorical_conversion_witness :
    (convert_categorical_to_numeric exC4).get "pH_Level" =
      convertColSpec [("Low", mkRat 9 2), ("Medium", mkRat 13 2), ("High", mkRat 17 2)]
        (exC4.get "pH_Level")
    ∧ (convert_categorical_to_numeric exC4).get "Extra_Column" = exC4.get "Extra_Column" :=
  ⟨(C4_categorical_conversion exC4).2.1,
   (C4_categorical_conversion exC4).2.2.2.2.2.2 "Extra_Column" (by decide)⟩

/-- Boolean test that every cell of a column is numeric. -/
def allNum (vs : List Value) : Bool :=
  vs.all fun v => match v with
    | Value.num _ => true
    | _ => false

theorem to_numeric_coerce_allNum : ∀ vs : List Value, allNum vs = true → to_numeric_coerce vs = vs
  | [], _ => rfl
  | v :: vt, h => by
    simp only [allNum, List.all_cons, Bool.and_eq_true] at h
    obtain ⟨h1, h2⟩ := h
    cases v with
    | num q =>
      simp only [to_numeric_coerce, List.map_cons]
      rw [show List.map _ vt = vt from to_numeric_coerce_allNum vt h2]
    | str s => simp at h1
    | na => simp at h1

theorem allNum_no_na : ∀ vs : List Value, allNum vs = true →
    (vs.any fun v => v = Value.na) = false
  | [], _ => rfl
  | v :: vt, h => by
    simp only [allNum, List.all_cons, Bool.and_eq_true] at h
    obtain ⟨h1, h2⟩ := h
    cases v with
    | num q => simp [allNum_no_na vt h2]
    | str s => simp at h1
    | na => simp at h1

theorem handleNumericCol_allNum (vs : List Value) (h : allNum vs = true) :
    handleNumericCol vs = vs := by
  unfold handleNumericCol
  simp [to_numeric_coerce_allNum vs h, allNum_no_na vs h]

theorem get_ne_none_of_hasCol (d : Table) (c : String) (h : d.hasCol c = true) :
    ¬ d.get c = none := by
  revert h
  show d.cols.any (fun p => p.1 = c) = true → ¬ getCols c d.cols = none
  induction d.cols with
  | nil => intro hp; simp at hp
  | cons p ps ih =>
    intro hp
    by_cases hc : p.1 = c
    · simp [getCols, hc]
    · simp [hc] at hp
      simp [getCols, hc, ih (by simpa using hp)]

theorem get_defaultStep_present (d : Table) (p : String × Value) (c : String) (vs : List Value)
    (h : d.get c = some vs) : (defaultStep d p).get c = some vs := by
  unfold defaultStep
  split_ifs with hb
  · exact h
  · by_cases hc : p.1 = c
    · subst hc
      exact absurd (hasCol_of_get_some d p.1 vs h) hb
    · rw [get_set_ne d p.1 c _ (fun he => hc he.symm)]
      exact h

theorem hasCol_defaultStep_ne (d : Table) (p : String × Value) (c : String)
    (h : ¬ p.1 = c) : (defaultStep d p).hasCol c = d.hasCol c := by
  unfold defaultStep
  split_ifs with hb
  · rfl
  · exact hasCol_set_ne d p.1 c _ (fun he => h he.symm)

theorem nrows_defaultStep (d : Table) (p : String × Value) :
    (defaultStep d p).nrows = d.nrows := by
  unfold defaultStep
  split_ifs <;> rfl

theorem get_defaultsFold_present : ∀ (defs : List (String × Value)) (d : Table) (c : String)
    (vs : List Value), d.get c = some vs → (defs.foldl defaultStep d).get c = some vs
  | [], _, _, _, h => h
  | p :: ps, d, c, vs, h =>
    get_defaultsFold_present ps _ c vs (get_defaultStep_present d p c vs h)

theorem get_defaultsFold_insert : ∀ (defs : List (String × Value)) (d : Table) (c : String)
    (dv : Value), (c, dv) ∈ defs → (defs.map Prod.fst).Nodup → d.hasCol c = false →
    (defs.foldl defaultStep d).get c = some (List.replicate d.nrows dv)
  | [], _, _, _, hmem, _, _ => by simp at hmem
  | p :: ps, d, c, dv, hmem, hnd, habs => by
    rw [List.foldl_cons]
    simp only [List.map_cons, List.nodup_cons] at hnd
    obtain ⟨hh, ht⟩ := hnd
    rcases List.mem_cons.mp hmem with heq | hmem'
    · have hstep : (defaultStep d p).get c = some (List.replicate d.nrows dv) := by
        unfold defaultStep
        rw [← heq]
        simp [habs]
      exact get_defaultsFold_present ps _ c _ hstep
    · have hne : ¬ p.1 = c := by
        intro he
        exact hh (he ▸ (List.mem_map_of_mem Prod.fst hmem' : (c, dv).1 ∈ ps.map Prod.fst))
      have h2 : (defaultStep d p).hasCol c = false := by
        rw [hasCol_defaultStep_ne d p c hne]
        exact habs
      have h3 := get_defaultsFold_insert ps (defaultStep d p) c dv hmem' ht h2
      rw [nrows_defaultStep] at h3
      exact h3

theorem get_numericStep_ne (d : Table) (c₀ c : String) (h : ¬ c₀ = c) :
    (numericStep d c₀).get c = d.get c := by
  cases hg : d.get c₀ with
  | none => simp [numericStep, hg]
  | some vs => simp [numericStep, hg, get_set_ne d c₀ c _ (fun he => h he.symm)]

theorem get_numericStep_self_allNum (d : Table) (c : String) (vs : List Value)
    (h : d.get c = some vs) (hn : allNum vs = true) :
    (numericStep d c).get c = some vs := by
  simp [numericStep, h, handleNumericCol_allNum vs hn]

theorem get_numericFold_allNum : ∀ (cs : List String) (d : Table) (c : String)
    (vs : List Value), d.get c = some vs → allNum vs = true →
    (cs.foldl numericStep d).get c = some vs
  | [], _, _, _, h, _ => h
  | c₀ :: ct, d, c, vs, h, hn => by
    rw [List.foldl_cons]
    by_cases hc : c₀ = c
    · subst hc
      exact get_numericFold_allNum ct _ c₀ vs (get_numericStep_self_allNum d c₀ vs h hn) hn
    · exact get_numericFold_allNum ct _ c vs (by rw [get_numericStep_ne d c₀ c hc]; exact h) hn

theorem get_numericFold_notMem : ∀ (cs : List String) (d : Table) (c : String),
    c ∉ cs → (cs.foldl numericStep d).get c = d.get c
  | [], _, _, _ => rfl
  | c₀ :: ct, d, c, h => by
    rw [List.foldl_cons,
        get_numericFold_notMem ct _ c (fun hm => h (List.mem_cons_of_mem _ hm)),
        get_numericStep_ne d c₀ c (fun he => h (he ▸ List.mem_cons_self c₀ ct))]

theorem allNum_replicate_num (n : ℕ) (q : ℚ) :
    allNum (List.replicate n (Value.num q)) = true := by
  induction n with
  | zero => rfl
  | succ m ih => simpa [List.replicate, allNum] using ih

/-- Example table for C7: no Moisture_Content column, and a present
pH_Level column holding a non-numeric label. -/
def exC7 : Table := ⟨1, [("pH_Level", [Value.str "unknown-label"])]⟩

/-- C7 counterexample: the claim says every already-present column is left
unchanged, but on a table missing Moisture_Content whose present pH_Level
column holds a non-numeric label, handle_missing_data inserts
Moisture_Content = 50.0 and also rewrites pH_Level: the label is coerced to
NaN (and stays NaN since the column mean over no numeric cells is NaN). -/
theorem C7_counterexample :
    exC7.hasCol "Moisture_Content" = false
    ∧ (handle_missing_data exC7).get "Moisture_Content" = some [Value.num 50]
    ∧ (handle_missing_data exC7).get "pH_Level" = some [Value.na]
    ∧ ¬ (handle_missing_data exC7).get "pH_Level" = exC7.get "pH_Level" := by decide

/-- C7 amended: handle_missing_data inserts each absent expected column
with its fixed default broadcast over all rows (Moisture_Content with
50.0); a present column whose name is outside the six numeric-coercion
columns is left unchanged, and a present numeric-coercion column is left
unchanged when all its cells are numeric — columns with non-numeric or
missing cells may be altered by coercion and mean imputation. -/
theorem C7_missing_columns (d : Table) :
    (∀ c dv, (c, dv) ∈ DEFAULT_VALUES → d.hasCol c = false →
      (handle_missing_data d).get c = some (List.replicate d.nrows dv))
    ∧ (∀ c, d.hasCol c = true → c ∉ numeric_columns →
        (handle_missing_data d).get c = d.get c)
    ∧ (∀ c vs, d.get c = some vs → allNum vs = true →
        (handle_missing_data d).get c = some vs) := by
  refine ⟨?_, ?_, ?_⟩
  · intro c dv hmem habs
    have h1 : (DEFAULT_VALUES.foldl defaultStep d).get c = some (List.replicate d.nrows dv) :=
      get_defaultsFold_insert DEFAULT_VALUES d c dv hmem (by decide) habs
    unfold handle_missing_data
    simp only [DEFAULT_VALUES, List.mem_cons, List.not_mem_nil, or_false,
      Prod.mk.injEq] at hmem
    rcases hmem with ⟨rfl, rfl⟩ | ⟨rfl, rfl⟩ | ⟨rfl, rfl⟩ | ⟨rfl, rfl⟩ | ⟨rfl, rfl⟩ |
      ⟨rfl, rfl⟩ | ⟨rfl, rfl⟩
    · rw [get_numericFold_notMem numeric_columns _ _ (by decide)]
      exact h1
    all_goals exact get_numericFold_allNum numeric_columns _ _ _ h1 (allNum_replicate_num _ _)
  · intro c hpres hnot
    unfold handle_missing_data
    rw [get_numericFold_notMem numeric_columns _ _ hnot]
    cases hg : d.get c with
    | none => exact absurd hg (get_ne_none_of_hasCol d c hpres)
    | some vs => exact get_defaultsFold_present DEFAULT_VALUES d c vs hg
  · intro c vs hg hn
    unfold handle_missing_data
    exact get_numericFold_allNum numeric_columns _ c vs
      (get_defaultsFold_present DEFAULT_VALUES d c vs hg) hn

/-- Example table for the C7 witness: one row, missing Moisture_Content,
with a fully numeric unrecognized column. -/
def exC7w : Table := ⟨1, [("Extra_Data", [Value.num 7])]⟩

/-- Witness for C7: on the one-row example, the absent Moisture_Content is
inserted as the single cell 50.0 and the present fully-numeric column is
unchanged. -/
theorem C7_missing_columns_witness :
    (("Moisture_Content", Value.num 50) ∈ DEFAULT_VALUES
        ∧ exC7w.hasCol "Moisture_Content" = false)
    ∧ (handle_missing_data exC7w).get "Moisture_Content" = some [Value.num 50]
    ∧ (handle_missing_data exC7w).get "Extra_Data" = exC7w.get "Extra_Data" := by
  refine ⟨⟨by decide, by decide⟩, ?_, ?_⟩
  · have h := (C7_missing_columns exC7w).1 "Moisture_Content" (Value.num 50)
      (by decide) (by decide)
    simpa using h
  · exact (C7_missing_columns exC7w).2.1 "Extra_Data" (by decide) (by decide)

theorem isObjectDtype_allNum : ∀ vs : List Value, allNum vs = true →
    isObjectDtype vs = false
  | [], _ => rfl
  | v :: vt, h => by
    simp only [allNum, List.all_cons, Bool.and_eq_true] at h
    obtain ⟨h1, h2⟩ := h
    cases v with
    | num q =>
      have ht := isObjectDtype_allNum vt (show allNum vt = true from h2)
      simpa [isObjectDtype, List.any_cons] using ht
    | str s => simp at h1
    | na => simp at h1

theorem foldl_table_id {α : Type} (f : Table → α → Table) :
    ∀ (l : List α) (d : Table), (∀ a ∈ l, f d a = d) → l.foldl f d = d
  | [], _, _ => rfl
  | a :: l, d, h => by
    rw [List.foldl_cons, h a (List.mem_cons_self a l)]
    exact foldl_table_id f l d (fun b hb => h b (List.mem_cons_of_mem a hb))

theorem convertStep_id (d : Table) (p : String × List (String × ℚ))
    (h : ∀ vs, d.get p.1 = some vs → isObjectDtype vs = false) :
    convertStep d p = d := by
  cases hg : d.get p.1 with
  | none => simp [convertStep, hg]
  | some vs => simp [convertStep, hg, h vs hg]

theorem defaultStep_id (d : Table) (p : String × Value) (h : d.hasCol p.1 = true) :
    defaultStep d p = d := by
  simp [defaultStep, h]

theorem numericStep_id (d : Table) (c : String) (vs : List Value)
    (h : d.get c = some vs) (hn : allNum vs = true) : numericStep d c = d := by
  simp [numericStep, h, handleNumericCol_allNum vs hn, set_self_of_get d c vs h]

/-- C8: normalization — categorical conversion followed by missing-data
handling — of a table that already has all seven expected columns with
fully numeric cells in the six numeric columns is the identity: the output
table equals the input table. -/
theorem C8_normalize_identity (d : Table)
    (hW : d.hasCol "Waste_Type" = true)
    (hnum : ∀ c ∈ numeric_columns, ∃ vs, d.get c = some vs ∧ allNum vs = true) :
    handle_missing_data (convert_categorical_to_numeric d) = d := by
  have h7 : ∀ c ∈ numeric_columns, d.hasCol c = true := by
    intro c hcm
    obtain ⟨vs, hg, _⟩ := hnum c hcm
    exact hasCol_of_get_some d c vs hg
  have hconv : convert_categorical_to_numeric d = d := by
    apply foldl_table_id convertStep CATEGORICAL_MAPPINGS d
    intro p hp
    apply convertStep_id
    intro vs hvs
    have hmemn : p.1 ∈ numeric_columns := by
      simp only [CATEGORICAL_MAPPINGS, List.mem_cons, List.not_mem_nil, or_false] at hp
      rcases hp with rfl | rfl | rfl | rfl | rfl | rfl <;> decide
    obtain ⟨vs', hg, hn⟩ := hnum p.1 hmemn
    rw [hvs] at hg
    injection hg with he
    exact he ▸ isObjectDtype_allNum vs' hn
  rw [hconv]
  have hdef : DEFAULT_VALUES.foldl defaultStep d = d := by
    apply foldl_table_id defaultStep DEFAULT_VALUES d
    intro p hp
    apply defaultStep_id
    simp only [DEFAULT_VALUES, List.mem_cons, List.not_mem_nil, or_false] at hp
    rcases hp with rfl | rfl | rfl | rfl | rfl | rfl | rfl
    · exact hW
    all_goals exact h7 _ (by decide)
  unfold handle_missing_data
  rw [hdef]
  apply foldl_table_id numericStep numeric_columns d
  intro c hcm
  obtain ⟨vs, hg, hn⟩ := hnum c hcm
  exact numericStep_id d c vs hg hn

/-- Example table for the C8 witness: one row with all seven expected
columns, the six numeric ones fully numeric. -/
def exC8 : Table :=
  ⟨1, [("Waste_Type", [Value.str "Food"]),
       ("Moisture_Content", [Value.num 60]),
       ("pH_Level", [Value.num 7]),
       ("Carbon_Content", [Value.num 40]),
       ("Particle_Size_mm", [Value.num 5]),
       ("Age_Days", [Value.num 20]),
       ("Degradation_Rate", [Value.num 2])]⟩

/-- Witness for C8: the fully-populated numeric example table is returned
unchanged by normalization. -/
theorem C8_normalize_identity_witness :
    exC8.hasCol "Waste_Type" = true
    ∧ handle_missing_data (convert_categorical_to_numeric exC8) = exC8 := by
  have hnum : ∀ c ∈ numeric_columns, ∃ vs, exC8.get c = some vs ∧ allNum vs = true := by
    intro c hc
    simp only [numeric_columns, List.mem_cons, List.not_mem_nil, or_false] at hc
    rcases hc with rfl | rfl | rfl | rfl | rfl | rfl
    · exact ⟨[Value.num 60], by decide, by decide⟩
    · exact ⟨[Value.num 7], by decide, by decide⟩
    · exact ⟨[Value.num 40], by decide, by decide⟩
    · exact ⟨[Value.num 5], by decide, by decide⟩
    · exact ⟨[Value.num 20], by decide, by decide⟩
    · exact ⟨[Value.num 2], by decide, by decide⟩
  exact ⟨by decide, C8_normalize_identity exC8 (by decide) hnum⟩

/-!
Synthetic target generation, src/utils.py lines 39-56, with the random
draws of `np.random.uniform` passed in as explicit per-row lists of
rationals. Decimal constants are exact fractions: 0.01 is `mkRat 1 100`,
0.1 is `mkRat 1 10`, 0.05 is `mkRat 1 20`, 0.005 is `mkRat 1 200`,
0.008 is `mkRat 1 125`.
-/

/-- Pandas clip with a lower and an upper bound. -/
def clip (lo hi x : ℚ) : ℚ := min (max x lo) hi

/-- Elementwise comparison `data[Waste_Type] == label` as a 0/1 factor:
only an equal string cell compares true. -/
def indicator (v : Value) (label : String) : ℚ :=
  if v = Value.str label then 1 else 0

/-- One row of the Nitrogen_pct expression of src/utils.py lines 41-45:
Food indicator times its draw plus Garden indicator times its draw plus
moisture times 0.01 minus pH times 0.1, clipped to [0.05, 5.0]; a
non-numeric operand propagates NaN. -/
def synthNitrogenCell (w m p : Value) (rFood rGarden : ℚ) : Value :=
  match m, p with
  | Value.num mq, Value.num pq =>
    Value.num (clip (mkRat 1 20) 5
      (indicator w "Food" * rFood + indicator w "Garden" * rGarden
        + mq * mkRat 1 100 - pq * mkRat 1 10))
  | _, _ => Value.na

/-- One row of the Phosphorus_pct expression of src/utils.py lines 47-50:
Food indicator times its draw plus carbon times 0.005, clipped to
[0.01, 2.0]. -/
def synthPhosphorusCell (w cc : Value) (rFood : ℚ) : Value :=
  match cc with
  | Value.num cq =>
    Value.num (clip (mkRat 1 100) 2 (indicator w "Food" * rFood + cq * mkRat 1 200))
  | _ => Value.na

/-- One row of the Potassium_pct expression of src/utils.py lines 52-55:
Food indicator times its draw plus moisture times 0.008, clipped to
[0.05, 3.0]. -/
def synthPotassiumCell (w m : Value) (rFood : ℚ) : Value :=
  match m with
  | Value.num mq =>
    Value.num (clip (mkRat 1 20) 3 (indicator w "Food" * rFood + mq * mkRat 1 125))
  | _ => Value.na

/-- Row-wise Nitrogen_pct column. -/
def nitrogenCol : List Value → List Value → List Value → List ℚ → List ℚ → List Value
  | w :: ws, m :: ms, p :: ps, f :: fs, g :: gs =>
    synthNitrogenCell w m p f g :: nitrogenCol ws ms ps fs gs
  | _, _, _, _, _ => []

/-- Row-wise Phosphorus_pct column. -/
def phosphorusCol : List Value → List Value → List ℚ → List Value
  | w :: ws, c :: cs, f :: fs => synthPhosphorusCell w c f :: phosphorusCol ws cs fs
  | _, _, _ => []

/-- Row-wise Potassium_pct column. -/
def potassiumCol : List Value → List Value → List ℚ → List Value
  | w :: ws, m :: ms, f :: fs => synthPotassiumCell w m f :: potassiumCol ws ms fs
  | _, _, _ => []

/-- Embedding of `generate_synthetic_targets` (src/utils.py lines 39-56):
the three target columns are assigned in order, each computed from the
current table's feature columns and the corresponding random draws, with
no test of whether a target column already exists. -/
def generate_synthetic_targets (data : Table)
    (rNFood rNGarden rPFood rKFood : List ℚ) : Table :=
  let d1 := data.set "Nitrogen_pct"
    (nitrogenCol (data.vals "Waste_Type") (data.vals "Moisture_Content")
      (data.vals "pH_Level") rNFood rNGarden)
  let d2 := d1.set "Phosphorus_pct"
    (phosphorusCol (d1.vals "Waste_Type") (d1.vals "Carbon_Content") rPFood)
  d2.set "Potassium_pct"
    (potassiumCol (d2.vals "Waste_Type") (d2.vals "Moisture_Content") rKFood)

/-- The target list of src/app.py line 155. -/
def target_variables : List String := ["Nitrogen_pct", "Phosphorus_pct", "Potassium_pct"]

/-- The synthetic-target branch of the Train Model handler, src/app.py
lines 157-160: generation runs exactly when not all three target columns
are present. -/
def trainPrepareTargets (data : Table) (rNFood rNGarden rPFood rKFood : List ℚ) : Table :=
  if target_variables.all (fun t => data.hasCol t) then data
  else generate_synthetic_targets data rNFood rNGarden rPFood rKFood

theorem vals_set_ne (d : Table) (c c' : String) (vs : List Value) (h : c' ≠ c) :
    (d.set c vs).vals c' = d.vals c' := by
  unfold Table.vals
  rw [get_set_ne d c c' vs h]

theorem generate_get_nitrogen (d : Table) (rNFood rNGarden rPFood rKFood : List ℚ) :
    (generate_synthetic_targets d rNFood rNGarden rPFood rKFood).get "Nitrogen_pct" =
      some (nitrogenCol (d.vals "Waste_Type") (d.vals "Moisture_Content")
        (d.vals "pH_Level") rNFood rNGarden) := by
  unfold generate_synthetic_targets
  rw [get_set_ne _ _ _ _ (by decide), get_set_ne _ _ _ _ (by decide), get_set_self]

theorem generate_get_phosphorus (d : Table) (rNFood rNGarden rPFood rKFood : List ℚ) :
    (generate_synthetic_targets d rNFood rNGarden rPFood rKFood).get "Phosphorus_pct" =
      some (phosphorusCol (d.vals "Waste_Type") (d.vals "Carbon_Content") rPFood) := by
  unfold generate_synthetic_targets
  rw [get_set_ne _ _ _ _ (by decide), get_set_self,
      vals_set_ne _ _ _ _ (by decide), vals_set_ne _ _ _ _ (by decide)]

theorem generate_get_potassium (d : Table) (rNFood rNGarden rPFood rKFood : List ℚ) :
    (generate_synthetic_targets d rNFood rNGarden rPFood rKFood).get "Potassium_pct" =
      some (potassiumCol (d.vals "Waste_Type") (d.vals "Moisture_Content") rKFood) := by
  unfold generate_synthetic_targets
  rw [get_set_self, vals_set_ne _ _ _ _ (by decide), vals_set_ne _ _ _ _ (by decide),
      vals_set_ne _ _ _ _ (by decide), vals_set_ne _ _ _ _ (by decide)]

/-- Example table for C5: all seven feature columns plus an existing
Nitrogen_pct column with value 4.2 (`mkRat 21 5`); Phosphorus_pct and
Potassium_pct are absent. -/
def exC5 : Table :=
  ⟨1, [("Waste_Type", [Value.str "Mixed"]),
       ("Moisture_Content", [Value.num 50]),
       ("pH_Level", [Value.num (mkRat 13 2)]),
       ("Carbon_Content", [Value.num 35]),
       ("Particle_Size_mm", [Value.num 10]),
       ("Age_Days", [Value.num 30]),
       ("Degradation_Rate", [Value.num 1]),
       ("Nitrogen_pct", [Value.num (mkRat 21 5)])]⟩

/-- C5 counterexample: the claim says a target column already present keeps
its original values; but on a table whose Nitrogen_pct is present (4.2)
while Phosphorus_pct is missing, the synthetic branch runs and overwrites
Nitrogen_pct: the Mixed waste row becomes clip(50 times 0.01 minus 6.5
times 0.1) = 0.05, not 4.2. -/
theorem C5_counterexample :
    exC5.hasCol "Nitrogen_pct" = true
    ∧ exC5.hasCol "Phosphorus_pct" = false
    ∧ exC5.get "Nitrogen_pct" = some [Value.num (mkRat 21 5)]
    ∧ (trainPrepareTargets exC5 [2] [1] [1] [2]).get "Nitrogen_pct" =
        some [Value.num (mkRat 1 20)]
    ∧ ¬ (trainPrepareTargets exC5 [2] [1] [1] [2]).get "Nitrogen_pct" =
        exC5.get "Nitrogen_pct" := by
  have hbranch : trainPrepareTargets exC5 [2] [1] [1] [2] =
      generate_synthetic_targets exC5 [2] [1] [1] [2] := by
    unfold trainPrepareTargets
    rw [if_neg (by decide)]
  have h4 : (trainPrepareTargets exC5 [2] [1] [1] [2]).get "Nitrogen_pct" =
      some [Value.num (mkRat 1 20)] := by
    rw [hbranch, generate_get_nitrogen]
    have hvals : exC5.vals "Waste_Type" = [Value.str "Mixed"]
        ∧ exC5.vals "Moisture_Content" = [Value.num 50]
        ∧ exC5.vals "pH_Level" = [Value.num (mkRat 13 2)] := by decide
    rw [hvals.1, hvals.2.1, hvals.2.2]
    simp only [nitrogenCol, synthNitrogenCell, indicator]
    rw [if_neg (show ¬ (Value.str "Mixed" = Value.str "Food") from by decide),
        if_neg (show ¬ (Value.str "Mixed" = Value.str "Garden") from by decide)]
    norm_num [clip, min_def, max_def, Rat.mkRat_eq_divInt, Rat.divInt_eq_div]
  refine ⟨by decide, by decide, by decide, h4, ?_⟩
  rw [h4]
  decide

/-- C5 amended: the synthetic branch runs exactly when at least one of the
three target columns is missing — when all three are present the data is
returned unchanged — but when generation runs it assigns all three target
columns from the feature columns and the random draws, overwriting any
target column that was already present. -/
theorem C5_synthetic_targets (d : Table) (rNFood rNGarden rPFood rKFood : List ℚ) :
    ((target_variables.all fun t => d.hasCol t) = true →
      trainPrepareTargets d rNFood rNGarden rPFood rKFood = d)
    ∧ (¬ (target_variables.all fun t => d.hasCol t) = true →
      trainPrepareTargets d rNFood rNGarden rPFood rKFood =
        generate_synthetic_targets d rNFood rNGarden rPFood rKFood)
    ∧ (generate_synthetic_targets d rNFood rNGarden rPFood rKFood).get "Nitrogen_pct" =
        some (nitrogenCol (d.vals "Waste_Type") (d.vals "Moisture_Content")
          (d.vals "pH_Level") rNFood rNGarden)
    ∧ (generate_synthetic_targets d rNFood rNGarden rPFood rKFood).get "Phosphorus_pct" =
        some (phosphorusCol (d.vals "Waste_Type") (d.vals "Carbon_Content") rPFood)
    ∧ (generate_synthetic_targets d rNFood rNGarden rPFood rKFood).get "Potassium_pct" =
        some (potassiumCol (d.vals "Waste_Type") (d.vals "Moisture_Content") rKFood) :=
  ⟨fun h => by simp [trainPrepareTargets, h],
   fun h => by simp [trainPrepareTargets, h],
   generate_get_nitrogen d rNFood rNGarden rPFood rKFood,
   generate_get_phosphorus d rNFood rNGarden rPFood rKFood,
   generate_get_potassium d rNFood rNGarden rPFood rKFood⟩

/-- Example table for the C5 witness: all three target columns present. -/
def exC5w : Table :=
  ⟨1, [("Waste_Type", [Value.str "Food"]),
       ("Nitrogen_pct", [Value.num 2]),
       ("Phosphorus_pct", [Value.num 1]),
       ("Potassium_pct", [Value.num 1])]⟩

/-- Witness for C5: with all three target columns present, the training
handler leaves the data unchanged. -/
theorem C5_synthetic_targets_witness :
    (target_variables.all fun t => exC5w.hasCol t) = true
    ∧ trainPrepareTargets exC5w [1] [1] [1] [1] = exC5w :=
  ⟨by decide, (C5_synthetic_targets exC5w [1] [1] [1] [1]).1 (by decide)⟩

theorem clip_bounds (lo hi x : ℚ) (h : lo ≤ hi) :
    lo ≤ clip lo hi x ∧ clip lo hi x ≤ hi :=
  ⟨le_min (le_max_right x lo) h, min_le_right _ _⟩

theorem allNum_mem (vs : List Value) (h : allNum vs = true) (v : Value) (hv : v ∈ vs) :
    ∃ q, v = Value.num q := by
  simp only [allNum, List.all_eq_true] at h
  have hvv := h v hv
  cases v with
  | num q => exact ⟨q, rfl⟩
  | str s => simp at hvv
  | na => simp at hvv

theorem nitrogenCol_mem : ∀ (ws ms ps : List Value) (fs gs : List ℚ) (v : Value),
    v ∈ nitrogenCol ws ms ps fs gs →
    ∃ w m p f g, m ∈ ms ∧ p ∈ ps ∧ v = synthNitrogenCell w m p f g := by
  intro ws ms ps fs gs
  induction ws generalizing ms ps fs gs with
  | nil => intro v hv; simp [nitrogenCol] at hv
  | cons w wt ih =>
    intro v hv
    match ms, ps, fs, gs with
    | [], _, _, _ => simp [nitrogenCol] at hv
    | _ :: _, [], _, _ => simp [nitrogenCol] at hv
    | _ :: _, _ :: _, [], _ => simp [nitrogenCol] at hv
    | _ :: _, _ :: _, _ :: _, [] => simp [nitrogenCol] at hv
    | m :: mt, p :: pt, f :: ft, g :: gt =>
      rcases List.mem_cons.mp hv with heq | hmem
      · exact ⟨w, m, p, f, g, List.mem_cons_self m mt, List.mem_cons_self p pt, heq⟩
      · obtain ⟨w', m', p', f', g', hm, hp, he⟩ := ih mt pt ft gt v hmem
        exact ⟨w', m', p', f', g', List.mem_cons_of_mem m hm, List.mem_cons_of_mem p hp, he⟩

theorem phosphorusCol_mem : ∀ (ws cs : List Value) (fs : List ℚ) (v : Value),
    v ∈ phosphorusCol ws cs fs →
    ∃ w c f, c ∈ cs ∧ v = synthPhosphorusCell w c f := by
  intro ws cs fs
  induction ws generalizing cs fs with
  | nil => intro v hv; simp [phosphorusCol] at hv
  | cons w wt ih =>
    intro v hv
    match cs, fs with
    | [], _ => simp [phosphorusCol] at hv
    | _ :: _, [] => simp [phosphorusCol] at hv
    | c :: ct, f :: ft =>
      rcases List.mem_cons.mp hv with heq | hmem
      · exact ⟨w, c, f, List.mem_cons_self c ct, heq⟩
      · obtain ⟨w', c', f', hc, he⟩ := ih ct ft v hmem
        exact ⟨w', c', f', List.mem_cons_of_mem c hc, he⟩

theorem potassiumCol_mem : ∀ (ws ms : List Value) (fs : List ℚ) (v : Value),
    v ∈ potassiumCol ws ms fs →
    ∃ w m f, m ∈ ms ∧ v = synthPotassiumCell w m f := by
  intro ws ms fs
  induction ws generalizing ms fs with
  | nil => intro v hv; simp [potassiumCol] at hv
  | cons w wt ih =>
    intro v hv
    match ms, fs with
    | [], _ => simp [potassiumCol] at hv
    | _ :: _, [] => simp [potassiumCol] at hv
    | m :: mt, f :: ft =>
      rcases List.mem_cons.mp hv with heq | hmem
      · exact ⟨w, m, f, List.mem_cons_self m mt, heq⟩
      · obtain ⟨w', m', f', hm, he⟩ := ih mt ft v hmem
        exact ⟨w', m', f', List.mem_cons_of_mem m hm, he⟩

/-- C9: for every feature table whose moisture, pH and carbon columns are
fully numeric, and every outcome of the random draws, each synthesized
Nitrogen_pct cell lies in [0.05, 5.0], each Phosphorus_pct cell in
[0.01, 2.0], and each Potassium_pct cell in [0.05, 3.0]. -/
theorem C9_synthetic_ranges (d : Table) (rNFood rNGarden rPFood rKFood : List ℚ)
    (hM : allNum (d.vals "Moisture_Content") = true)
    (hP : allNum (d.vals "pH_Level") = true)
    (hC : allNum (d.vals "Carbon_Content") = true) :
    (∀ v ∈ (generate_synthetic_targets d rNFood rNGarden rPFood rKFood).vals "Nitrogen_pct",
      ∃ q, v = Value.num q ∧ mkRat 1 20 ≤ q ∧ q ≤ 5)
    ∧ (∀ v ∈ (generate_synthetic_targets d rNFood rNGarden rPFood rKFood).vals "Phosphorus_pct",
      ∃ q, v = Value.num q ∧ mkRat 1 100 ≤ q ∧ q ≤ 2)
    ∧ (∀ v ∈ (generate_synthetic_targets d rNFood rNGarden rPFood rKFood).vals "Potassium_pct",
      ∃ q, v = Value.num q ∧ mkRat 1 20 ≤ q ∧ q ≤ 3) := by
  have hlo1 : (mkRat 1 20 : ℚ) ≤ 5 := by
    norm_num [Rat.mkRat_eq_divInt, Rat.divInt_eq_div]
  have hlo2 : (mkRat 1 100 : ℚ) ≤ 2 := by
    norm_num [Rat.mkRat_eq_divInt, Rat.divInt_eq_div]
  have hlo3 : (mkRat 1 20 : ℚ) ≤ 3 := by
    norm_num [Rat.mkRat_eq_divInt, Rat.divInt_eq_div]
  refine ⟨?_, ?_, ?_⟩
  · intro v hv
    rw [Table.vals, generate_get_nitrogen] at hv
    obtain ⟨w, m, p, f, g, hm, hp, he⟩ := nitrogenCol_mem _ _ _ _ _ v hv
    obtain ⟨mq, rfl⟩ := allNum_mem _ hM m hm
    obtain ⟨pq, rfl⟩ := allNum_mem _ hP p hp
    exact ⟨_, by rw [he]; rfl, (clip_bounds _ _ _ hlo1).1, (clip_bounds _ _ _ hlo1).2⟩
  · intro v hv
    rw [Table.vals, generate_get_phosphorus] at hv
    obtain ⟨w, c, f, hc, he⟩ := phosphorusCol_mem _ _ _ v hv
    obtain ⟨cq, rfl⟩ := allNum_mem _ hC c hc
    exact ⟨_, by rw [he]; rfl, (clip_bounds _ _ _ hlo2).1, (clip_bounds _ _ _ hlo2).2⟩
  · intro v hv
    rw [Table.vals, generate_get_potassium] at hv
    obtain ⟨w, m, f, hm, he⟩ := potassiumCol_mem _ _ _ v hv
    obtain ⟨mq, rfl⟩ := allNum_mem _ hM m hm
    exact ⟨_, by rw [he]; rfl, (clip_bounds _ _ _ hlo3).1, (clip_bounds _ _ _ hlo3).2⟩

/-- Witness for C9: on the fully numeric one-row example table, every
synthesized Nitrogen_pct cell lies in the Nitrogen range. -/
theorem C9_synthetic_ranges_witness :
    allNum (exC8.vals "Moisture_Content") = true
    ∧ (∀ v ∈ (generate_synthetic_targets exC8 [2] [1] [1] [2]).vals "Nitrogen_pct",
        ∃ q, v = Value.num q ∧ mkRat 1 20 ≤ q ∧ q ≤ 5) :=
  ⟨by decide,
   (C9_synthetic_ranges exC8 [2] [1] [1] [2] (by decide) (by decide) (by decide)).1⟩

/-!
Per-target training loop, src/app.py lines 163-188, and the top-level
exception handler of src/app.py lines 130-299.
-/

/-- Modelled from library behavior: scikit-learn input validation raises a
ValueError when the target vector handed to `fit` contains NaN; its message
is a fixed library string that does not name the DataFrame column the
target was taken from. -/
def fitTargetCheck (y : List Value) : Except String Unit :=
  if y.any (fun v => v = Value.na) then Except.error "Input y contains NaN."
  else Except.ok ()

/-- The per-target loop of src/app.py lines 164-188: each target column is
fitted in turn and the first exception aborts the loop; the loop itself
performs no validation of its own and names no target in any error. -/
def trainTargetsRun (d : Table) : Except String Unit :=
  target_variables.foldl
    (fun acc t =>
      match acc with
      | Except.error e => Except.error e
      | Except.ok _ => fitTargetCheck (d.vals t))
    (Except.ok ())

/-- The handler of src/app.py lines 298-299: an exception escaping the body
is shown as the generic file-processing banner around the library
message. -/
def surfacedError (d : Table) : Option String :=
  match trainTargetsRun d with
  | Except.error e => some ("Error processing the file: " ++ e)
  | Except.ok _ => none

/-- Character-list test that the first list occurs at the start of the
second. -/
def beginsWith : List Char → List Char → Bool
  | [], _ => true
  | _ :: _, [] => false
  | a :: as, b :: bs => a = b && beginsWith as bs

/-- Character-list test that the first list occurs anywhere in the
second. -/
def hasSegment (needle : List Char) : List Char → Bool
  | [] => beginsWith needle []
  | c :: cs => beginsWith needle (c :: cs) || hasSegment needle cs

/-- Occurrence of one string inside another, used to state that an error
message names a target column. -/
def strMentions (needle hay : String) : Bool := hasSegment needle.data hay.data

/-- Example table for C6: Nitrogen_pct holds only missing values while the
other two targets are numeric. -/
def exC6 : Table :=
  ⟨2, [("Waste_Type", [Value.str "Food", Value.str "Garden"]),
       ("Nitrogen_pct", [Value.na, Value.na]),
       ("Phosphorus_pct", [Value.num 1, Value.num 1]),
       ("Potassium_pct", [Value.num 1, Value.num 1])]⟩

/-- C6: on a table whose Nitrogen_pct target is entirely missing, the fit
aborts with the library error and the user sees the generic
file-processing banner, which does not mention the offending target
Nitrogen_pct anywhere — the handler has no error path of its own that
names a target. -/
theorem C6_degenerate_target_error :
    (exC6.vals "Nitrogen_pct").all (fun v => v = Value.na) = true
    ∧ surfacedError exC6 = some "Error processing the file: Input y contains NaN."
    ∧ strMentions "Nitrogen_pct" "Error processing the file: Input y contains NaN." = false := by
  decide

end OneEarth
